import Mathlib

/-!
Verification development for the Ring-Security-Integration repository.

The repository is Python.  Every definition below is a shallow embedding of a
concrete piece of the source; the file/line references in the doc comments
point into the repository.  Wall-clock instants and durations are modelled as
rationals (seconds); Python exceptions are modelled by the `PyExc` type and
`Except PyExc`-valued functions.
-/

/-! ### Python runtime basics -/

/-- Python exceptions that the embedded code can raise. -/
inductive PyExc where
  | nameError (missing : String)
  | typeError (msg : String)
  | indexError
  deriving Repr, DecidableEq

/-- When `sep` is a leading subsequence of `l`, the remainder of `l` after
it; otherwise none.  Helper for `pySplit`. -/
def dropSep : List Char → List Char → Option (List Char)
  | [], l => some l
  | _ :: _, [] => none
  | c :: cs, x :: xs => if c = x then dropSep cs xs else none

/-- Fuelled scanner behind `pySplit` (structural recursion on the fuel so
that it evaluates by kernel reduction; `pySplit` supplies enough fuel). -/
def pySplitAux (sep : List Char) : Nat → List Char → List (List Char)
  | _, [] => [[]]
  | 0, l => [l]
  | fuel + 1, x :: xs =>
      match dropSep sep (x :: xs) with
      | some rest => [] :: pySplitAux sep fuel rest
      | none =>
          match pySplitAux sep fuel xs with
          | [] => [[x]]
          | h :: t => (x :: h) :: t

/-- Python's `hay.split(sep)` for a non-empty separator: the pieces of `hay`
between non-overlapping left-to-right occurrences of `sep`. -/
def pySplit (sep hay : String) : List String :=
  (pySplitAux sep.data hay.data.length hay.data).map (fun l => String.mk l)

/-- Python's `needle in hay` test on strings (membership of a non-empty
substring): `hay.split(needle)` has more than one part iff `needle` occurs. -/
def pyIn (needle hay : String) : Bool :=
  (pySplit needle hay).length > 1

/-- Splitter behind `pySplitWs`; `cur` is the reversed token being built. -/
def wsSplitAux : List Char → List Char → List (List Char)
  | cur, [] => if cur.isEmpty then [] else [cur.reverse]
  | cur, c :: cs =>
      if c.isWhitespace then
        if cur.isEmpty then wsSplitAux [] cs
        else cur.reverse :: wsSplitAux [] cs
      else wsSplitAux (c :: cur) cs

/-- Python's `s.split()` with no argument: split on runs of whitespace,
discarding empty pieces. -/
def pySplitWs (s : String) : List String :=
  (wsSplitAux [] s.data).map (fun l => String.mk l)

/-- Python's `s.strip()`: drop leading and trailing whitespace. -/
def pyStrip (s : String) : String :=
  String.mk (((s.data.dropWhile Char.isWhitespace).reverse.dropWhile
    Char.isWhitespace).reverse)

/-- Python's `int(q)` on a float/rational: truncation toward zero. -/
def pyInt (q : ℚ) : ℤ :=
  if 0 ≤ q then ⌊q⌋ else ⌈q⌉

/-! ### Classifier module: src/src/llm_analysis.py

The module's only import is `import openai` (line 1); its other top-level
statements define `ANALYSIS_PROMPT` and `class DeterminationEngine`.  In
particular `base64`, `json` and `logger` are *not* defined in the module
(they are module-level names of the sibling file src/package_thief_detector.py,
which does not leak into this module's namespace). -/

/-- Module-scope names of src/src/llm_analysis.py: the single import plus the
two top-level definitions. -/
def llm_analysis_globals : List String :=
  ["openai", "ANALYSIS_PROMPT", "DeterminationEngine"]

/-- Shape of the classification result dict consumed by `handle_motion`
(§ src/src/package_thief_detector.py lines 372-396).  The orchestrator reads
the keys with `.get`, so a missing key behaves as a falsy/empty default;
the record stores the defaulted values directly. -/
structure ClassificationResult where
  is_suspicious : Bool
  is_delivery : Bool
  description : String
  deriving Repr, DecidableEq

/-- Fence extraction, src/src/llm_analysis.py lines 87-92 (pure string
operations on the classifier's reply).  When the separator occurs, Python's
`split(sep)[1]` always exists, so `getD _ 1 ""` returns exactly that part;
`split(sep)[0]` always exists. -/
def extract_fenced (response_text : String) : String :=
  if pyIn "```json" response_text then
    pyStrip ((pySplit "```" ((pySplit "```json" response_text).getD 1 "")).getD 0 "")
  else if pyIn "```" response_text then
    pyStrip ((pySplit "```" ((pySplit "```" response_text).getD 1 "")).getD 0 "")
  else
    pyStrip response_text

/-- DeterminationEngine.analyze_image_for_theft, src/src/llm_analysis.py
lines 43-109, embedded as the sequence of module-global name resolutions and
string operations it performs.  `parse` stands for the external
`json.loads` behaviour (success or a JSONDecodeError message) on the
extracted payload; `response_text` is the classifier's reply.  Statement
order follows the source:

* line 57 `client = openai.OpenAI(...)` resolves `openai`;
* line 59 `image_base64 = base64.standard_b64encode(...)` resolves `base64`
  (outside the `try`, so a NameError here propagates to the caller);
* lines 87-92 extract the fenced payload;
* line 94 `result = json.loads(json_str)` resolves `json`;
* line 95 `logger.info(...)` resolves `logger` on the success path;
* lines 98-106: the `except json.JSONDecodeError` clause itself resolves
  `json` before it can match, then builds the safe-default dict. -/
def analyze_image_for_theft (parse : String → Except String ClassificationResult)
    (response_text : String) : Except PyExc ClassificationResult :=
  if ¬ llm_analysis_globals.contains "openai" then .error (.nameError "openai")
  else if ¬ llm_analysis_globals.contains "base64" then .error (.nameError "base64")
  else
    let json_str := extract_fenced response_text
    if ¬ llm_analysis_globals.contains "json" then .error (.nameError "json")
    else
      match parse json_str with
      | .ok result =>
          if ¬ llm_analysis_globals.contains "logger" then .error (.nameError "logger")
          else .ok result
      | .error _e =>
          if ¬ llm_analysis_globals.contains "json" then .error (.nameError "json")
          else .ok { is_suspicious := false, is_delivery := false,
                     description := "Failed to analyze image" }

/-! ### Motion cooldown gate: should_process_motion

src/src/package_thief_detector.py lines 321-341 (textually identical logic in
src/package_thief_detector.py lines 463-483).  `self.last_motion_time` is a
dict from device id to the datetime of the last accepted trigger, embedded as
an association list; `now` is the value of `datetime.now()` at the call.  A
present datetime object is always truthy, so `if last_time:` is an
is-not-None test. -/

def GateState : Type := List (String × ℚ)

/-- Python `dict.get(device_id)`. -/
def gate_lookup (s : GateState) (d : String) : Option ℚ :=
  (s.find? (fun p => p.1 == d)).map (fun p => p.2)

/-- Python `dict[device_id] = now` (replace the binding, or append a new one). -/
def gate_set (s : GateState) (d : String) (t : ℚ) : GateState :=
  match s with
  | [] => [(d, t)]
  | p :: rest => if p.1 == d then (d, t) :: rest else p :: gate_set rest d t

/-- Default of CONFIG["motion_cooldown"], seconds. -/
def MOTION_COOLDOWN_DEFAULT : ℚ := 30

/-- PackageThiefDetector.should_process_motion.  Returns the decision and the
state after the call: a signal inside the cooldown window returns False with
the dict untouched; otherwise the device's entry is set to `now` and True is
returned. -/
def should_process_motion (cooldown : ℚ) (s : GateState) (d : String) (now : ℚ) :
    Bool × GateState :=
  match gate_lookup s d with
  | some last =>
      if now - last < cooldown then (false, s)
      else (true, gate_set s d now)
  | none => (true, gate_set s d now)

/-- A sequence of `should_process_motion` calls, one per observed
(device, now) pair in call order, threading the shared dict; each output
entry carries the device, the call's `now`, and the returned decision. -/
def runGate (cooldown : ℚ) (s : GateState) : List (String × ℚ) → List (String × ℚ × Bool)
  | [] => []
  | (d, t) :: es =>
      let r := should_process_motion cooldown s d t
      (d, t, r.1) :: runGate cooldown r.2 es

/-- Times of the accepted (True-returning) calls for device `d`, in call
order, starting from gate state `s`. -/
def acceptedTimesFrom (cooldown : ℚ) (s : GateState) (evs : List (String × ℚ))
    (d : String) : List ℚ :=
  (runGate cooldown s evs).filterMap
    (fun e => if e.1 = d ∧ e.2.2 = true then some e.2.1 else none)

/-- Times of the accepted calls for device `d` when monitoring starts from the
empty dict (the state `PackageThiefDetector.__init__` creates). -/
def acceptedTimes (cooldown : ℚ) (evs : List (String × ℚ)) (d : String) : List ℚ :=
  acceptedTimesFrom cooldown [] evs d

/-! ### WebRTC capture and playback sessions

src/src/package_thief_detector.py: `get_snapshot` (lines 243-319) and
`play_alert_through_doorbell` (lines 163-241).  The aiortc peer connection,
the Ring negotiation endpoint and the event loop are external collaborators;
an environment record supplies their behaviour for one run, and the embedding
computes what the function observably does: its return value, how often and
with which id `doorbell.close_webrtc_stream` is called, whether `pc.close()`
runs, and how long each internal wait took. -/

/-- Session-id recovery, line 297 (identically line 220):
`local_sdp.split("o=")[1].split()[1] if "o=" in local_sdp else None`.
When "o=" occurs, Python's `split("o=")[1]` always exists; the second
whitespace token of that part may not, in which case the expression raises
IndexError (inside the enclosing `try`). -/
def extract_session_id (local_sdp : String) : Except PyExc (Option String) :=
  if pyIn "o=" local_sdp then
    match (pySplitWs ((pySplit "o=" local_sdp).getD 1 "")).get? 1 with
    | some tok => .ok (some tok)
    | none => .error .indexError
  else .ok none

/-- The fixed timeout of `asyncio.wait_for(frame_future, timeout=15)`,
line 303.  There is no `frame_timeout` parameter in the source; 15 is a
literal. -/
def FRAME_WAIT_TIMEOUT : ℚ := 15

/-- External behaviour of one `get_snapshot` run. -/
structure RTCEnv where
  /-- Iterations of the `while pc.iceGatheringState != "complete"` loop
  (lines 290-291), each an `asyncio.sleep(0.1)`. -/
  icePolls : Nat
  /-- Wall-clock cost of the `generate_webrtc_stream` round-trip. -/
  negotiationTime : ℚ
  /-- `pc.localDescription.sdp` (line 293). -/
  localSdp : String
  /-- `await doorbell.generate_webrtc_stream(local_sdp)` (line 296): the
  answer SDP, or the exception it raises. -/
  negotiation : Except String String
  /-- Resolution of `frame_future`: the delay (seconds from entering
  `asyncio.wait_for`) and the value — captured JPEG bytes, or the exception
  set by `_capture_frame`; `none` if the future is never resolved. -/
  frameOutcome : Option (ℚ × Except String (List Nat))
  /-- Outcome of `await doorbell.close_webrtc_stream(session_id)`
  (line 316), if it is called. -/
  teardownOutcome : Except String Unit

/-- The three ways `get_snapshot` returns: the captured bytes, or Python
`None` from the `except asyncio.TimeoutError` branch (line 307-309), or
Python `None` from the generic `except Exception` branch (line 310-312). -/
inductive SnapResult where
  | frame (bytes : List Nat)
  | noneTimeout
  | noneError (msg : String)
  deriving Repr, DecidableEq

/-- Observable outcome of one `get_snapshot` run. -/
structure SnapRun where
  result : SnapResult
  /-- Number of `close_webrtc_stream` calls made by the `finally` block. -/
  teardownCalls : Nat
  /-- The id passed to `close_webrtc_stream`, when called. -/
  teardownId : Option String
  /-- Whether `await pc.close()` ran (line 319). -/
  pcClosed : Bool
  /-- Seconds spent in the ICE-gathering poll loop. -/
  discoveryWait : ℚ
  /-- Seconds spent inside `asyncio.wait_for(frame_future, timeout=15)`. -/
  frameWait : ℚ
  deriving Repr, DecidableEq

/-- The `finally` block, lines 313-319: if a session id was assigned, call
`close_webrtc_stream` once inside `try: ... except Exception: pass` — both a
normal return and an exception of the teardown call are followed by
`pc.close()`, and neither escapes. -/
def snapshot_finally (sid : Option String) (teardown : Except String Unit) :
    Nat × Option String :=
  match sid with
  | some s =>
      match teardown with
      | .ok _ => (1, some s)
      | .error _ => (1, some s)
  | none => (0, none)

/-- PackageThiefDetector.get_snapshot, lines 243-319.  The try body:
transceivers and offer (external, lines 283-287), the ICE poll loop
(lines 290-291, `icePolls` iterations of 0.1 s with no bound), the
negotiation exchange (line 296), the session-id assignment (line 297,
skipped when the exchange raised), the answer application (lines 299-301),
and the frame wait (line 303) with the fixed 15 s timeout.  All exits run
the `finally` block. -/
def get_snapshot (env : RTCEnv) : SnapRun :=
  let discovery : ℚ := (env.icePolls : ℚ) * (1 / 10)
  match env.negotiation with
  | .error msg =>
      -- exception raised before `session_id` was assigned: session_id is
      -- still None, so the finally block skips remote teardown
      { result := .noneError msg, teardownCalls := 0, teardownId := none,
        pcClosed := true, discoveryWait := discovery, frameWait := 0 }
  | .ok _answer =>
      match extract_session_id env.localSdp with
      | .error _ =>
          -- IndexError inside the session_id expression: the assignment did
          -- not complete, session_id is still None
          { result := .noneError "IndexError", teardownCalls := 0,
            teardownId := none, pcClosed := true, discoveryWait := discovery,
            frameWait := 0 }
      | .ok sid =>
          let fin := snapshot_finally sid env.teardownOutcome
          match env.frameOutcome with
          | none =>
              { result := .noneTimeout, teardownCalls := fin.1,
                teardownId := fin.2, pcClosed := true,
                discoveryWait := discovery, frameWait := FRAME_WAIT_TIMEOUT }
          | some (d, out) =>
              if d ≤ FRAME_WAIT_TIMEOUT then
                match out with
                | .ok bytes =>
                    { result := .frame bytes, teardownCalls := fin.1,
                      teardownId := fin.2, pcClosed := true,
                      discoveryWait := discovery, frameWait := d }
                | .error m =>
                    { result := .noneError m, teardownCalls := fin.1,
                      teardownId := fin.2, pcClosed := true,
                      discoveryWait := discovery, frameWait := d }
              else
                { result := .noneTimeout, teardownCalls := fin.1,
                  teardownId := fin.2, pcClosed := true,
                  discoveryWait := discovery, frameWait := FRAME_WAIT_TIMEOUT }

/-- External behaviour of one `play_alert_through_doorbell` run. -/
structure AlertEnv where
  /-- `sound_file.exists()` (line 179). -/
  soundFileExists : Bool
  /-- Whether the AudioSegment load/convert block (lines 186-195) succeeds. -/
  audioLoadOk : Bool
  /-- `pc.localDescription.sdp` (line 216). -/
  localSdp : String
  /-- `await doorbell.generate_webrtc_stream(local_sdp)` (line 219). -/
  negotiation : Except String String
  /-- Outcome of `await doorbell.close_webrtc_stream(session_id)`
  (line 238), if it is called. -/
  teardownOutcome : Except String Unit

/-- Observable outcome of one `play_alert_through_doorbell` run. -/
structure AlertRun where
  result : Bool
  teardownCalls : Nat
  teardownId : Option String
  /-- Whether the peer connection was created at all (line 199 runs only
  after the two early returns). -/
  pcCreated : Bool
  /-- Whether `await pc.close()` ran (line 241). -/
  pcClosed : Bool
  deriving Repr, DecidableEq

/-- PackageThiefDetector.play_alert_through_doorbell, lines 163-241:
missing sound file (lines 179-181) and audio-load failure (lines 186-195)
return False before the peer connection exists; afterwards the offer/ICE
sequence runs, the negotiation exchange may raise (caught by the
`except Exception` at line 232, returning False), the session id is
recovered from the local SDP exactly as in `get_snapshot`, the clip streams
for its duration, and the `finally` block (lines 235-241) mirrors
`get_snapshot`'s. -/
def play_alert_through_doorbell (env : AlertEnv) : AlertRun :=
  if ¬ env.soundFileExists then
    { result := false, teardownCalls := 0, teardownId := none,
      pcCreated := false, pcClosed := false }
  else if ¬ env.audioLoadOk then
    { result := false, teardownCalls := 0, teardownId := none,
      pcCreated := false, pcClosed := false }
  else
    match env.negotiation with
    | .error _ =>
        { result := false, teardownCalls := 0, teardownId := none,
          pcCreated := true, pcClosed := true }
    | .ok _answer =>
        match extract_session_id env.localSdp with
        | .error _ =>
            { result := false, teardownCalls := 0, teardownId := none,
              pcCreated := true, pcClosed := true }
        | .ok sid =>
            let fin := snapshot_finally sid env.teardownOutcome
            { result := true, teardownCalls := fin.1, teardownId := fin.2,
              pcCreated := true, pcClosed := true }

/-! ### Storage sinks: src/src/google_drive_class.py

The module imports five Google client-library names (lines 1-5), `logging`
(line 6), `Optional` and `Path` (lines 8-9), and defines
`GOOGLE_DRIVE_AVAILABLE = True` (line 7), `logger` (line 15) and the class
(line 17).  `os` and `json`, both used in the class body, are *not*
imported. -/

/-- Module-level `GOOGLE_DRIVE_AVAILABLE`, line 7 of
src/src/google_drive_class.py (an unconditional `= True`; the per-instance
flag passed by `PackageThiefDetector.__init__` is also True but line 31
reads the module-level name). -/
def GOOGLE_DRIVE_AVAILABLE : Bool := true

/-- Module-scope names of src/src/google_drive_class.py. -/
def google_drive_class_globals : List String :=
  ["Credentials", "InstalledAppFlow", "Request", "build", "MediaFileUpload",
   "logging", "GOOGLE_DRIVE_AVAILABLE", "Optional", "Path", "logger",
   "GoogleDriveWriter"]

/-- GoogleDriveWriter.get_google_drive_service, lines 26-63.  After the
availability guard (line 31) and two local assignments, line 39 is
`if os.path.exists(token_file):`, which resolves the module global `os`;
since `os` is not defined in the module this raises NameError, so control
can never reach lines 40-63 (whose OAuth flow is therefore not modelled:
the final branch below is dead under the definition of
`google_drive_class_globals`). -/
def get_google_drive_service : Except PyExc (Option Unit) :=
  if ¬ GOOGLE_DRIVE_AVAILABLE then .ok none
  else if ¬ google_drive_class_globals.contains "os" then .error (.nameError "os")
  else .ok (some ())

/-- GoogleDriveWriter.upload_to_google_drive, lines 65-119.  Calls
`get_google_drive_service` outside any `try` (line 83): its exception
propagates to the caller.  A None service returns None (lines 84-86).
Otherwise line 95 `json.dumps(analysis, indent=2)` resolves the module
global `json` — also undefined — before the guarded upload attempt
(lines 103-119) could run; that attempt is dead and not modelled further. -/
def upload_to_google_drive : Except PyExc (Option String) :=
  match get_google_drive_service with
  | .error e => .error e
  | .ok none => .ok none
  | .ok (some _) =>
      if ¬ google_drive_class_globals.contains "json" then .error (.nameError "json")
      else .ok (some "file-id")

/-- Parameter count of the declaration
`def save_locally(image_data, filename, analysis)` (lines 123-127): the
`self` parameter is missing. -/
def save_locally_param_count : Nat := 3

/-- Python's bound-method call protocol: `instance.m(a1, ..., ak)` invokes
the class-level function with k+1 positional arguments (the instance is
prepended); with no defaults or varargs the call raises TypeError unless
the declaration has exactly k+1 parameters, and only then does the body
run. -/
def boundMethodCall (paramCount explicitArgs : Nat) (body : Except PyExc Unit) :
    Except PyExc Unit :=
  if paramCount = explicitArgs + 1 then body
  else .error (.typeError "positional argument count mismatch")

/-- The call `self.google_drive_writer.save_locally(snapshot, filename,
analysis)` (src/src/package_thief_detector.py line 386): three explicit
arguments to a bound method whose declaration has three parameters.  The
body (which would in any case hit the undefined names `self` and `json`)
is never entered, so it is modelled as a success to show the failure comes
from the call protocol alone. -/
def save_locally_bound_call : Except PyExc Unit :=
  boundMethodCall save_locally_param_count 3 (.ok ())

/-! ### Orchestrator branch: PackageThiefDetector.handle_motion

src/src/package_thief_detector.py lines 370-396: the branch on the
classification result, reached after the cooldown gate, the snapshot and the
classifier call.  `play_alert_through_doorbell` catches its own exceptions
and returns a bool (lines 179-234); the notifier's `_send` catches its own
exceptions (src/src/notifier.py lines 23-30); the upload and the local save
are the embedded functions above, and an exception from either propagates
out of `handle_motion` (there is no try/except around lines 374-396). -/

/-- Configuration bits `handle_motion` branches on. -/
structure PipelineConfig where
  /-- Truthiness of CONFIG["google_drive_folder_id"] (line 379). -/
  google_drive_folder_id : Bool
  /-- Whether `self.notifier` is set (lines 93-98, 388, 393). -/
  notifier : Bool
  deriving Repr, DecidableEq

/-- Side effects the branch can start. -/
inductive Effect where
  | alertPlayback
  | driveUploadCall
  | localSaveCall
  | localSaveOk
  | notifyThief
  | notifyDelivered
  deriving Repr, DecidableEq

/-- The classification branch of `handle_motion` (lines 374-396): the list
of side effects in the order they are started, and the exception the call
raises, if any.  `localSaveCall` marks reaching line 386, `localSaveOk`
a save_locally call that returned normally. -/
def handle_motion_branch (cfg : PipelineConfig) (analysis : ClassificationResult) :
    List Effect × Option PyExc :=
  if analysis.is_suspicious then
    -- line 377: await self.play_alert_through_doorbell(doorbell)
    let effs := [Effect.alertPlayback]
    if cfg.google_drive_folder_id then
      -- lines 379-384: await self.google_drive_writer.upload_to_google_drive(...)
      match upload_to_google_drive with
      | .error e => (effs ++ [Effect.driveUploadCall], some e)
      | .ok _ =>
          -- line 386: self.google_drive_writer.save_locally(...)
          match save_locally_bound_call with
          | .error e => (effs ++ [Effect.driveUploadCall, Effect.localSaveCall], some e)
          | .ok _ =>
              (effs ++ [Effect.driveUploadCall, Effect.localSaveCall, Effect.localSaveOk]
                ++ (if cfg.notifier then [Effect.notifyThief] else []), none)
    else
      match save_locally_bound_call with
      | .error e => (effs ++ [Effect.localSaveCall], some e)
      | .ok _ =>
          (effs ++ [Effect.localSaveCall, Effect.localSaveOk]
            ++ (if cfg.notifier then [Effect.notifyThief] else []), none)
  else if analysis.is_delivery then
    -- lines 390-394
    ((if cfg.notifier then [Effect.notifyDelivered] else []), none)
  else
    -- lines 395-396: log only
    ([], none)

/-! ### Timed audio source: src/src/audio_file_track.py

AudioFileTrack holds a pre-decoded int16 sample buffer at 48 kHz and serves
20 ms mono frames (960 samples) from it.  `recv` is embedded as a state
transition: given the state and the wall-clock instant of the call, it
yields the instant the frame is released (call time plus the
`asyncio.sleep` the method performs, if any), the 960-sample chunk, and the
next state. -/

/-- `self.samples_per_frame = 960` (line 13). -/
def SAMPLES_PER_FRAME : Nat := 960

/-- `sample_rate: int = 48000` (line 9). -/
def SAMPLE_RATE : ℚ := 48000

/-- Mutable state of an AudioFileTrack instance (lines 9-15). -/
structure TrackState where
  samples : List Int
  position : Nat
  startTime : Option ℚ
  deriving Repr, DecidableEq

/-- A fresh track over a sample buffer (the constructor, lines 9-15). -/
def trackInit (samples : List Int) : TrackState :=
  { samples := samples, position := 0, startTime := none }

/-- Result of one `recv` call. -/
structure RecvOut where
  releaseTime : ℚ
  chunk : List Int
  next : TrackState
  deriving Repr, DecidableEq

/-- AudioFileTrack.recv, lines 17-48, called at wall-clock instant `now`:

* lines 18-19: the first call latches `_start_time`;
* lines 22-23: `target_samples = int(elapsed * self.sample_rate)`;
* lines 26-28: if the emitted position is more than one frame ahead of the
  target, sleep the full shortfall `samples_ahead / sample_rate`;
* lines 31-38: slice the next 960 samples, zero-padding a short tail, or a
  fully zero chunk once the buffer is exhausted;
* line 40: `position = end_pos` (which stops advancing at the buffer's
  length). -/
def recv (s : TrackState) (now : ℚ) : RecvOut :=
  let start := s.startTime.getD now
  let elapsed := now - start
  let target : ℤ := pyInt (elapsed * SAMPLE_RATE)
  let samples_ahead : ℤ := (s.position : ℤ) - target
  let sleepFor : ℚ := if (SAMPLES_PER_FRAME : ℤ) < samples_ahead
    then (samples_ahead : ℚ) / SAMPLE_RATE else 0
  let L := s.samples.length
  let end_pos := min (s.position + SAMPLES_PER_FRAME) L
  let chunk : List Int :=
    if L ≤ s.position then
      List.replicate SAMPLES_PER_FRAME 0
    else
      let c := (s.samples.drop s.position).take SAMPLES_PER_FRAME
      c ++ List.replicate (SAMPLES_PER_FRAME - c.length) 0
  { releaseTime := now + sleepFor,
    chunk := chunk,
    next := { samples := s.samples, position := end_pos, startTime := some start } }

/-- A sequence of `recv` calls.  `t` is the instant the previous frame was
released (or the session start); each list entry is the consumer's delay
between receiving a frame and asking for the next, so call n happens at or
after release n-1 whenever the delays are nonnegative.  Returns the release
instants in order. -/
def runRecv (s : TrackState) (t : ℚ) : List ℚ → List ℚ
  | [] => []
  | d :: ds =>
      let out := recv s (t + d)
      out.releaseTime :: runRecv out.next out.releaseTime ds

/-! ### Polling-loop dedup state: start_monitoring

src/package_thief_detector.py lines 563-601 (per-device body, lines
576-595) and its gate should_process_motion (lines 463-483).  Per device,
`last_ding_ids[device_id]` is a Python `set` of event ids and
`last_motion_time[device_id]` the cooldown timestamp.  The set's *contents*
are modelled as the list of members in insertion order; all set operations
used by the loop (`in`, `add`, `len`) are order-independent, and the one
place iteration order matters — `list(s)` in the trim — consults the
permutation-valued parameter `σ`, since CPython enumerates a set in an
unspecified, hash-determined order that is in general *not* the insertion
order. -/

/-- One entry of `doorbell.async_history`, as read by the loop:
`event.get('id')`, `event.get('kind')`, and the wall-clock instant the loop
processes it (which becomes `datetime.now()` inside the gate). -/
structure MonEvent where
  id : Nat
  kind : String
  time : ℚ
  deriving Repr, DecidableEq

/-- Per-device monitoring state. -/
structure MonState where
  /-- Members of `last_ding_ids[device_id]`, in insertion order. -/
  seen : List Nat
  /-- `last_motion_time.get(device_id)`. -/
  lastMotion : Option ℚ
  deriving Repr, DecidableEq

/-- Line 593, `set(list(s)[-50:])`: enumerate the set in the iteration
order `σ` and keep the last 50 entries of that enumeration. -/
def py_set_trim (σ : List Nat → List Nat) (l : List Nat) : List Nat :=
  (σ l).drop ((σ l).length - 50)

/-- One history entry through the loop body (lines 581-595): a motion event
whose id is not yet in the seen-set has its id added (line 589) and the set
trimmed when its size exceeds 100 (lines 592-593) *before* `handle_motion`
is awaited (line 595), whose first act is the cooldown gate
(lines 463-483); every other event is skipped.  Returns the new state and
whether the gate passed, i.e. whether a capture was started. -/
def monitor_step (σ : List Nat → List Nat) (cooldown : ℚ) (s : MonState)
    (e : MonEvent) : MonState × Bool :=
  if e.kind == "motion" && !(s.seen.contains e.id) then
    let seen1 := s.seen ++ [e.id]
    let seen2 := if 100 < seen1.length then py_set_trim σ seen1 else seen1
    match s.lastMotion with
    | some last =>
        if e.time - last < cooldown then
          ({ seen := seen2, lastMotion := s.lastMotion }, false)
        else
          ({ seen := seen2, lastMotion := some e.time }, true)
    | none => ({ seen := seen2, lastMotion := some e.time }, true)
  else (s, false)

/-- The loop over a list of history entries in processing order. -/
def runMonitor (σ : List Nat → List Nat) (cooldown : ℚ) (s : MonState) :
    List MonEvent → MonState × List Bool
  | [] => (s, [])
  | e :: es =>
      let r := monitor_step σ cooldown s e
      let rest := runMonitor σ cooldown r.1 es
      (rest.1, r.2 :: rest.2)

/-- Ascending insertion sort on naturals: the iteration order CPython
actually produces for a set of distinct small nonnegative integers that are
all below the backing table's size (then `hash(n) = n` indexes slot n, and
enumeration walks the slots upward). -/
def insSorted (x : Nat) : List Nat → List Nat
  | [] => [x]
  | y :: ys => if x ≤ y then x :: y :: ys else y :: insSorted x ys

/-- See `insSorted`. -/
def sortAsc : List Nat → List Nat
  | [] => []
  | x :: xs => insSorted x (sortAsc xs)

/-- A well-formed local offer SDP whose "o=" line carries the session id
"4815162342" as its second token. -/
def sdpEx : String := "v=0 o=- 4815162342 2 IN IP4 127.0.0.1 s=-"

/-- A run in which ICE gathering needs 200 polls (20 s of 0.1 s sleeps), the
negotiation succeeds and the first frame arrives 1 s into the frame wait. -/
def c3_env : RTCEnv :=
  { icePolls := 200, negotiationTime := 0, localSdp := sdpEx,
    negotiation := Except.ok "answer-sdp",
    frameOutcome := some (1, Except.ok [255, 216]),
    teardownOutcome := Except.ok () }

/-- A run with a completed negotiation whose frame future never resolves. -/
def c3w_env : RTCEnv :=
  { icePolls := 3, negotiationTime := 2, localSdp := sdpEx,
    negotiation := Except.ok "answer-sdp", frameOutcome := none,
    teardownOutcome := Except.ok () }

/-- A run in which `generate_webrtc_stream` raises (for instance a transport
error), before the session id was assigned. -/
def c6_env : RTCEnv :=
  { icePolls := 0, negotiationTime := 0, localSdp := sdpEx,
    negotiation := Except.error "HTTPError", frameOutcome := none,
    teardownOutcome := Except.ok () }

/-- A playback run whose negotiation raises before the id assignment. -/
def c10w_alert_env : AlertEnv :=
  { soundFileExists := true, audioLoadOk := true, localSdp := sdpEx,
    negotiation := Except.error "HTTPError", teardownOutcome := Except.ok () }

/-- Helper: prepend the device's current last-trigger time (when present) to
a list of future accepted times. -/
def withLast (o : Option ℚ) (l : List ℚ) : List ℚ :=
  match o with
  | some t => t :: l
  | none => l

/-- Three history entries for one device: a first motion event; a second
motion event 5 s later with a new id, landing inside the 30 s cooldown; and
the same id re-emitted at t = 40, after the window has passed. -/
def c5_events : List MonEvent :=
  [{ id := 1, kind := "motion", time := 0 },
   { id := 2, kind := "motion", time := 5 },
   { id := 2, kind := "motion", time := 40 }]

/-- Helper: the seen-set evolution over a sequence of history entries,
as a pure function of the event kinds and ids (times and cooldown state
never influence it). -/
def seenEvolve (σ : List Nat → List Nat) : List Nat → List (String × Nat) → List Nat
  | seen, [] => seen
  | seen, (k, i) :: rest =>
      if k == "motion" && !(seen.contains i) then
        seenEvolve σ
          (if 100 < (seen ++ [i]).length then py_set_trim σ (seen ++ [i])
           else seen ++ [i]) rest
      else seenEvolve σ seen rest

/-- One hundred and one motion events for one device with distinct fresh ids
inserted in the order 100, 99, ..., 1, 0 (so id 0 is the most recently
inserted and id 100 the oldest). -/
def c7_events : List MonEvent :=
  (List.range 101).map (fun i => { id := 100 - i, kind := "motion", time := (i : ℚ) })

/-- The polling loop's initial per-device state. -/
def c7_state : MonState := { seen := [], lastMotion := none }

/-- A full 100-id seen-set reached after 100 distinct motion events. -/
def c7w_state : MonState := { seen := List.range 100, lastMotion := none }

/-! ## Claims -/

/-- C1: the claim says `analyze_image_for_theft` never surfaces an exception
and maps any unparsable reply to the safe-default result.  On the code this
fails before the reply is even examined: src/src/llm_analysis.py imports
only `openai`, so line 59 `base64.standard_b64encode(image_data)` — outside
the `try` — raises NameError on every call, for every classifier reply and
every parse behaviour (and the fallback path itself would raise NameError
on `json`/`logger`, also undefined). -/
theorem c1_analyze_image_always_raises
    (parse : String → Except String ClassificationResult) (response_text : String) :
    analyze_image_for_theft parse response_text =
      Except.error (PyExc.nameError "base64") := by
  rfl

/-- Witness for C1's theorem at a concrete reply. -/
theorem c1_analyze_image_always_raises_witness :
    analyze_image_for_theft (fun _ => Except.error "boom") "not json" =
      Except.error (PyExc.nameError "base64") :=
  c1_analyze_image_always_raises (fun _ => Except.error "boom") "not json"

/-- Helper: the embedded upload always raises NameError on `os` (module
`google_drive_class` defines neither `os` nor `json`). -/
theorem upload_to_google_drive_raises :
    upload_to_google_drive = Except.error (PyExc.nameError "os") := by
  rfl

/-- Helper: the embedded bound call of save_locally always raises TypeError
(the declaration lacks `self`, so the bound call passes 4 positional
arguments to a 3-parameter function). -/
theorem save_locally_bound_call_raises :
    save_locally_bound_call =
      Except.error (PyExc.typeError "positional argument count mismatch") := by
  rfl

/-- C2: the claim says local persistence of a suspicious frame is always
attempted and succeeds regardless of failures in the alert, upload or
notification steps.  On the code it never succeeds: for every suspicious
classification the branch raises before a save completes — with a Drive
folder configured, `upload_to_google_drive` raises NameError (`os` is not
imported in google_drive_class.py) and the save is not even reached; without
one, the `save_locally` call itself raises TypeError (its declaration is
missing `self`). -/
theorem c2_local_save_never_succeeds (cfg : PipelineConfig)
    (a : ClassificationResult) (h : a.is_suspicious = true) :
    Effect.localSaveOk ∉ (handle_motion_branch cfg a).1
    ∧ (handle_motion_branch cfg a).2.isSome = true
    ∧ (cfg.google_drive_folder_id = true →
        Effect.localSaveCall ∉ (handle_motion_branch cfg a).1) := by
  obtain ⟨folder, notifier⟩ := cfg
  cases folder <;> cases notifier <;>
    simp [handle_motion_branch, h, upload_to_google_drive_raises,
      save_locally_bound_call_raises]

/-- Witness for C2's theorem at a concrete suspicious classification and
configuration. -/
theorem c2_local_save_never_succeeds_witness :
    Effect.localSaveOk ∉
        (handle_motion_branch ⟨true, true⟩ ⟨true, false, "person at door"⟩).1
    ∧ (handle_motion_branch ⟨true, true⟩ ⟨true, false, "person at door"⟩).2.isSome = true
    ∧ (PipelineConfig.google_drive_folder_id ⟨true, true⟩ = true →
        Effect.localSaveCall ∉
          (handle_motion_branch ⟨true, true⟩ ⟨true, false, "person at door"⟩).1) :=
  c2_local_save_never_succeeds ⟨true, true⟩ ⟨true, false, "person at door"⟩ rfl

/-- C8: the claim says exactly one branch runs with suspicious priority, and
that the suspicious branch is alert → upload iff configured → local save →
thief notification.  The branch selection and priority are exactly as
claimed (both-flags-set picks the suspicious branch; delivery-only runs just
the delivery notification with no media effects; neither does nothing), but
the suspicious branch never reaches the thief notification: without a Drive
folder it raises TypeError at the save_locally call, with one it raises
NameError inside the upload, so `notify_thief_detected` is dead code. -/
theorem c8_branch_structure_and_failure :
    (handle_motion_branch ⟨false, true⟩ ⟨true, false, "person at door"⟩ =
      ([Effect.alertPlayback, Effect.localSaveCall],
        some (PyExc.typeError "positional argument count mismatch")))
    ∧ Effect.notifyThief ∉
        (handle_motion_branch ⟨false, true⟩ ⟨true, false, "person at door"⟩).1
    ∧ (handle_motion_branch ⟨true, true⟩ ⟨true, true, "ambiguous"⟩ =
        ([Effect.alertPlayback, Effect.driveUploadCall],
          some (PyExc.nameError "os")))
    ∧ Effect.notifyDelivered ∉
        (handle_motion_branch ⟨true, true⟩ ⟨true, true, "ambiguous"⟩).1
    ∧ (handle_motion_branch ⟨true, true⟩ ⟨false, true, "delivery driver"⟩ =
        ([Effect.notifyDelivered], none))
    ∧ (handle_motion_branch ⟨true, true⟩ ⟨false, false, "cat"⟩ = ([], none)) := by
  refine ⟨rfl, ?_, rfl, ?_, rfl, rfl⟩ <;> decide

/-- Helper: the finally block calls teardown exactly once, with the assigned
id, whenever a session id was assigned — whether or not the teardown call
itself raises (the bare `except` swallows either outcome). -/
theorem snapshot_finally_some (s : String) (t : Except String Unit) :
    snapshot_finally (some s) t = (1, some s) := by
  cases t <;> rfl

/-- Helper: with no assigned session id the finally block makes no teardown
call. -/
theorem snapshot_finally_none (t : Except String Unit) :
    snapshot_finally none t = (0, none) := rfl

/-- Helper: the ICE-discovery wait of a `get_snapshot` run is `icePolls`
sleeps of 0.1 s, on every control path, with no bound. -/
theorem get_snapshot_discoveryWait (env : RTCEnv) :
    (get_snapshot env).discoveryWait = (env.icePolls : ℚ) * (1 / 10) := by
  unfold get_snapshot
  rcases env.negotiation with m | a
  · rfl
  · rcases extract_session_id env.localSdp with e | sid
    · rfl
    · rcases env.frameOutcome with _ | ⟨d, out⟩
      · rfl
      · dsimp only
        by_cases hd : d ≤ FRAME_WAIT_TIMEOUT
        · rcases out with m | b <;> simp [hd]
        · simp [hd]

/-- Helper: the time spent inside `asyncio.wait_for` never exceeds the
hardcoded 15 s. -/
theorem get_snapshot_frameWait_le (env : RTCEnv) :
    (get_snapshot env).frameWait ≤ FRAME_WAIT_TIMEOUT := by
  unfold get_snapshot
  rcases env.negotiation with m | a
  · norm_num [FRAME_WAIT_TIMEOUT]
  · rcases extract_session_id env.localSdp with e | sid
    · norm_num [FRAME_WAIT_TIMEOUT]
    · rcases env.frameOutcome with _ | ⟨d, out⟩
      · simp
      · dsimp only
        by_cases hd : d ≤ FRAME_WAIT_TIMEOUT
        · rcases out with m | b <;> simp [hd]
        · simp [hd]

/-- Helper: the session-id recovery on `sdpEx`. -/
theorem extract_session_id_sdpEx :
    extract_session_id sdpEx = Except.ok (some "4815162342") := by
  rfl

/-- C3 counterexample: the claim says every internal wait of `get_snapshot`,
including the ICE-discovery polling loop, is bounded by the single 15 s
deadline, with a timeout failure on expiry.  In this run the discovery loop
alone waits 20 s — past the 15 s limit — yet the call neither times out nor
fails: it returns the captured frame. -/
theorem c3_single_deadline_counterexample :
    (get_snapshot c3_env).discoveryWait = 20
    ∧ FRAME_WAIT_TIMEOUT < (get_snapshot c3_env).discoveryWait
    ∧ (get_snapshot c3_env).result = SnapResult.frame [255, 216] := by
  have h := get_snapshot_discoveryWait c3_env
  refine ⟨by rw [h]; norm_num [c3_env], by rw [h]; norm_num [c3_env, FRAME_WAIT_TIMEOUT], ?_⟩
  show (get_snapshot c3_env).result = SnapResult.frame [255, 216]
  unfold get_snapshot c3_env
  rw [extract_session_id_sdpEx]
  norm_num [FRAME_WAIT_TIMEOUT]

/-- C3 (amended): only the first-frame wait of `get_snapshot` is bounded, by
the hardcoded 15 s `asyncio.wait_for` timeout (there is no `frame_timeout`
parameter); the ICE-gathering poll loop contributes `icePolls × 0.1 s` with
no bound, and when the frame future is unresolved after a completed
negotiation and session-id assignment the call takes the TimeoutError
branch and returns None. -/
theorem c3_frame_wait_only_bounded (env : RTCEnv) :
    (get_snapshot env).frameWait ≤ FRAME_WAIT_TIMEOUT
    ∧ (get_snapshot env).discoveryWait = (env.icePolls : ℚ) * (1 / 10)
    ∧ (env.frameOutcome = none →
        ∀ ans, env.negotiation = Except.ok ans →
        ∀ sid, extract_session_id env.localSdp = Except.ok sid →
        (get_snapshot env).result = SnapResult.noneTimeout) := by
  refine ⟨get_snapshot_frameWait_le env, get_snapshot_discoveryWait env, ?_⟩
  intro hfo ans hneg sid hsid
  unfold get_snapshot
  rw [hneg, hsid, hfo]

/-- Witness for C3's amended theorem: a run with a completed negotiation
whose frame future never resolves returns the timeout failure, within the
15 s frame-wait bound. -/
theorem c3_frame_wait_only_bounded_witness :
    (get_snapshot c3w_env).frameWait ≤ FRAME_WAIT_TIMEOUT
    ∧ (get_snapshot c3w_env).result = SnapResult.noneTimeout :=
  ⟨(c3_frame_wait_only_bounded c3w_env).1,
    (c3_frame_wait_only_bounded c3w_env).2.2 rfl "answer-sdp" rfl
      (some "4815162342") extract_session_id_sdpEx⟩

/-- C6 counterexample: the claim says remote teardown is attempted exactly
once on every exit path of `get_snapshot` — success, timeout, or exception.
On the exception exit path where `generate_webrtc_stream` raises,
`session_id` is still None, the `finally` guard skips the remote teardown
entirely, and the call returns the failure with zero teardown attempts. -/
theorem c6_teardown_counterexample :
    (get_snapshot c6_env).result = SnapResult.noneError "HTTPError"
    ∧ (get_snapshot c6_env).teardownCalls = 0 := by
  exact ⟨rfl, rfl⟩

/-- C6 (amended): whenever a session id was assigned — the negotiation
returned and the id was recovered from the local SDP — `get_snapshot`
attempts remote teardown exactly once with that id, on the success, timeout
and exception paths alike; a teardown error is swallowed by the bare
`except`, and the returned result is identical whatever the teardown call's
outcome.  When no id was assigned, no teardown call is made. -/
theorem c6_teardown_once_when_assigned (env : RTCEnv) (ans sid : String)
    (hneg : env.negotiation = Except.ok ans)
    (hsid : extract_session_id env.localSdp = Except.ok (some sid)) :
    (get_snapshot env).teardownCalls = 1
    ∧ (get_snapshot env).teardownId = some sid
    ∧ (∀ t₁ t₂ : Except String Unit,
        (get_snapshot { env with teardownOutcome := t₁ }).result =
          (get_snapshot { env with teardownOutcome := t₂ }).result) := by
  refine ⟨?_, ?_, ?_⟩
  · unfold get_snapshot
    rw [hneg, hsid]
    rcases env.frameOutcome with _ | ⟨d, out⟩
    · simp [snapshot_finally_some]
    · dsimp only
      by_cases hd : d ≤ FRAME_WAIT_TIMEOUT
      · rcases out with m | b <;> simp [hd, snapshot_finally_some]
      · simp [hd, snapshot_finally_some]
  · unfold get_snapshot
    rw [hneg, hsid]
    rcases env.frameOutcome with _ | ⟨d, out⟩
    · simp [snapshot_finally_some]
    · dsimp only
      by_cases hd : d ≤ FRAME_WAIT_TIMEOUT
      · rcases out with m | b <;> simp [hd, snapshot_finally_some]
      · simp [hd, snapshot_finally_some]
  · intro t₁ t₂
    unfold get_snapshot
    rcases env.negotiation with m | a
    · rfl
    · rcases extract_session_id env.localSdp with e | s
      · rfl
      · rcases env.frameOutcome with _ | ⟨d, out⟩
        · rfl
        · dsimp only
          by_cases hd : d ≤ FRAME_WAIT_TIMEOUT
          · rcases out with m | b <;> simp [hd]
          · simp [hd]

/-- Witness for C6's amended theorem: on the successful run of `c3_env` the
teardown is attempted once with the id recovered from the offer SDP. -/
theorem c6_teardown_once_when_assigned_witness :
    (get_snapshot c3_env).teardownCalls = 1
    ∧ (get_snapshot c3_env).teardownId = some "4815162342"
    ∧ (∀ t₁ t₂ : Except String Unit,
        (get_snapshot { c3_env with teardownOutcome := t₁ }).result =
          (get_snapshot { c3_env with teardownOutcome := t₂ }).result) :=
  c6_teardown_once_when_assigned c3_env "answer-sdp" "4815162342" rfl
    extract_session_id_sdpEx

/-- Helper: when the local SDP has no "o=" token, the session-id expression
evaluates to None. -/
theorem extract_session_id_no_token (sdp : String) (h : pyIn "o=" sdp = false) :
    extract_session_id sdp = Except.ok none := by
  unfold extract_session_id
  rw [h]
  rfl

/-- C10: in both `get_snapshot` and `play_alert_through_doorbell` the
teardown id is recovered by splitting the local offer SDP at its "o=" line;
if the negotiation raises before the id is assigned, or the local SDP has no
"o=" token, `session_id` stays None and no remote teardown call is made —
only the local peer connection is closed.  When an id is recovered, the
teardown call uses exactly that id. -/
theorem c10_session_id_recovery (e : RTCEnv) (ea : AlertEnv) :
    (∀ m, e.negotiation = Except.error m →
      (get_snapshot e).teardownCalls = 0 ∧ (get_snapshot e).pcClosed = true)
    ∧ (∀ ans, e.negotiation = Except.ok ans → pyIn "o=" e.localSdp = false →
        (get_snapshot e).teardownCalls = 0 ∧ (get_snapshot e).pcClosed = true)
    ∧ (∀ ans sid, e.negotiation = Except.ok ans →
        extract_session_id e.localSdp = Except.ok (some sid) →
        (get_snapshot e).teardownId = some sid)
    ∧ (∀ m, ea.negotiation = Except.error m →
        ea.soundFileExists = true → ea.audioLoadOk = true →
        (play_alert_through_doorbell ea).teardownCalls = 0
        ∧ (play_alert_through_doorbell ea).pcClosed = true)
    ∧ (∀ ans, ea.negotiation = Except.ok ans → pyIn "o=" ea.localSdp = false →
        ea.soundFileExists = true → ea.audioLoadOk = true →
        (play_alert_through_doorbell ea).teardownCalls = 0
        ∧ (play_alert_through_doorbell ea).pcClosed = true)
    ∧ (∀ ans sid, ea.negotiation = Except.ok ans →
        extract_session_id ea.localSdp = Except.ok (some sid) →
        ea.soundFileExists = true → ea.audioLoadOk = true →
        (play_alert_through_doorbell ea).teardownId = some sid) := by
  refine ⟨?_, ?_, ?_, ?_, ?_, ?_⟩
  · intro m hm
    unfold get_snapshot
    rw [hm]
    exact ⟨rfl, rfl⟩
  · intro ans hok hno
    unfold get_snapshot
    rw [hok, extract_session_id_no_token _ hno]
    rcases e.frameOutcome with _ | ⟨d, out⟩
    · exact ⟨rfl, rfl⟩
    · dsimp only
      by_cases hd : d ≤ FRAME_WAIT_TIMEOUT
      · rcases out with m | b <;> simp [hd, snapshot_finally_none]
      · simp [hd, snapshot_finally_none]
  · intro ans sid hok hsid
    unfold get_snapshot
    rw [hok, hsid]
    rcases e.frameOutcome with _ | ⟨d, out⟩
    · simp [snapshot_finally_some]
    · dsimp only
      by_cases hd : d ≤ FRAME_WAIT_TIMEOUT
      · rcases out with m | b <;> simp [hd, snapshot_finally_some]
      · simp [hd, snapshot_finally_some]
  · intro m hm hsound haudio
    unfold play_alert_through_doorbell
    rw [hm]
    simp [hsound, haudio]
  · intro ans hok hno hsound haudio
    unfold play_alert_through_doorbell
    rw [hok, extract_session_id_no_token _ hno]
    simp [hsound, haudio, snapshot_finally_none]
  · intro ans sid hok hsid hsound haudio
    unfold play_alert_through_doorbell
    rw [hok, hsid]
    simp [hsound, haudio, snapshot_finally_some]

/-- Witness for C10's theorem: a capture whose negotiation raised makes no
teardown call and still closes the peer connection; the successful capture
of `c3_env` tears down by the id split out of the offer SDP; a playback run
whose negotiation raised behaves like the capture. -/
theorem c10_session_id_recovery_witness :
    ((get_snapshot c6_env).teardownCalls = 0 ∧ (get_snapshot c6_env).pcClosed = true)
    ∧ (get_snapshot c3_env).teardownId = some "4815162342"
    ∧ ((play_alert_through_doorbell c10w_alert_env).teardownCalls = 0
        ∧ (play_alert_through_doorbell c10w_alert_env).pcClosed = true) :=
  ⟨(c10_session_id_recovery c6_env c10w_alert_env).1 "HTTPError" rfl,
    (c10_session_id_recovery c3_env c10w_alert_env).2.2.1 "answer-sdp" "4815162342"
      rfl extract_session_id_sdpEx,
    (c10_session_id_recovery c6_env c10w_alert_env).2.2.2.1 "HTTPError" rfl rfl rfl⟩

/-- Helper: unfold `gate_lookup` over a cons cell. -/
theorem gate_lookup_cons (p : String × ℚ) (rest : GateState) (d : String) :
    gate_lookup (p :: rest) d =
      if p.1 == d then some p.2 else gate_lookup rest d := by
  by_cases h : (p.1 == d) = true <;> simp [gate_lookup, List.find?, h]

/-- Helper: after `dict[d] = t` the lookup of `d` returns `t`. -/
theorem gate_lookup_set_eq (s : GateState) (d : String) (t : ℚ) :
    gate_lookup (gate_set s d t) d = some t := by
  induction s with
  | nil => simp [gate_set, gate_lookup_cons]
  | cons p rest ih =>
      by_cases h : (p.1 == d) = true
      · simp [gate_set, h, gate_lookup_cons]
      · simp [gate_set, h, gate_lookup_cons, ih]

/-- Helper: setting device `d` leaves every other device's entry alone. -/
theorem gate_lookup_set_ne (s : GateState) (d d' : String) (t : ℚ)
    (h : d' ≠ d) : gate_lookup (gate_set s d t) d' = gate_lookup s d' := by
  have hdd : (d == d') = false := by
    simpa using fun e => h e.symm
  induction s with
  | nil => simp [gate_set, gate_lookup_cons, hdd, gate_lookup]
  | cons p rest ih =>
      by_cases hp : (p.1 == d) = true
      · have hpd : (p.1 == d') = false := by
          have : p.1 = d := by simpa using hp
          simpa [this] using fun e => h e.symm
        simp [gate_set, hp, gate_lookup_cons, hdd, hpd]
      · by_cases hq : (p.1 == d') = true <;>
          simp [gate_set, hp, gate_lookup_cons, hq, ih]

/-- Helper: along any call sequence, the device's stored last-trigger time
followed by its future accepted times forms a chain whose consecutive
entries are at least the cooldown apart — a call is accepted only when
`now - last` is not below the cooldown, and only accepted calls overwrite
the stored time. -/
theorem gate_chain (c : ℚ) (d : String) :
    ∀ (evs : List (String × ℚ)) (s : GateState),
      List.Chain' (fun a b => a + c ≤ b)
        (withLast (gate_lookup s d) (acceptedTimesFrom c s evs d)) := by
  intro evs
  induction evs with
  | nil =>
      intro s
      rcases gate_lookup s d with _ | t <;>
        simp [acceptedTimesFrom, runGate, withLast]
  | cons ev es ih =>
      intro s
      obtain ⟨dev, t⟩ := ev
      by_cases hdev : dev = d
      · subst hdev
        rcases hl : gate_lookup s dev with _ | last
        · have hstep : should_process_motion c s dev t = (true, gate_set s dev t) := by
            simp [should_process_motion, hl]
          have hrun : acceptedTimesFrom c s ((dev, t) :: es) dev =
              t :: acceptedTimesFrom c (gate_set s dev t) es dev := by
            simp [acceptedTimesFrom, runGate, hstep]
          have h2 := ih (gate_set s dev t)
          rw [gate_lookup_set_eq] at h2
          rw [hrun]
          simp only [withLast] at h2 ⊢
          exact h2
        · by_cases hcool : t - last < c
          · have hstep : should_process_motion c s dev t = (false, s) := by
              simp [should_process_motion, hl, hcool]
            have hrun : acceptedTimesFrom c s ((dev, t) :: es) dev =
                acceptedTimesFrom c s es dev := by
              simp [acceptedTimesFrom, runGate, hstep]
            rw [hrun, ← hl]
            exact ih s
          · have hstep : should_process_motion c s dev t = (true, gate_set s dev t) := by
              simp [should_process_motion, hl, hcool]
            have hrun : acceptedTimesFrom c s ((dev, t) :: es) dev =
                t :: acceptedTimesFrom c (gate_set s dev t) es dev := by
              simp [acceptedTimesFrom, runGate, hstep]
            have h2 := ih (gate_set s dev t)
            rw [gate_lookup_set_eq] at h2
            rw [hrun]
            simp only [withLast] at h2 ⊢
            exact List.chain'_cons.mpr ⟨by linarith [not_lt.mp hcool], h2⟩
      · have hne : d ≠ dev := fun e => hdev e.symm
        have hstate : gate_lookup (should_process_motion c s dev t).2 d =
            gate_lookup s d := by
          unfold should_process_motion
          rcases gate_lookup s dev with _ | last
          · exact gate_lookup_set_ne s dev d t hne
          · by_cases hcool : t - last < c
            · simp [hcool]
            · simp [hcool, gate_lookup_set_ne s dev d t hne]
        have hrun : acceptedTimesFrom c s ((dev, t) :: es) d =
            acceptedTimesFrom c (should_process_motion c s dev t).2 es d := by
          simp [acceptedTimesFrom, runGate, hdev]
        rw [hrun, ← hstate]
        exact ih _

/-- C4: with a nonnegative cooldown window (the configured value; default
30 s), no two calls of `should_process_motion` for the same device are both
accepted with strictly less than the cooldown between their times — along
any interleaved multi-device call sequence, each device's accepted times are
pairwise at least the cooldown apart — and a call inside the window returns
False without touching the device's stored last-trigger time. -/
theorem c4_cooldown_spacing (c : ℚ) (hc : 0 ≤ c)
    (evs : List (String × ℚ)) (d : String) :
    (acceptedTimes c evs d).Pairwise (fun a b => a + c ≤ b)
    ∧ (∀ (s : GateState) (dev : String) (t last : ℚ),
        gate_lookup s dev = some last → t - last < c →
        should_process_motion c s dev t = (false, s)) := by
  constructor
  · have h := gate_chain c d evs []
    have hnil : gate_lookup ([] : GateState) d = none := rfl
    rw [hnil] at h
    simp only [withLast] at h
    haveI : IsTrans ℚ (fun a b => a + c ≤ b) := ⟨fun a b e hab hbe => by linarith⟩
    unfold acceptedTimes
    exact List.chain'_iff_pairwise.mp h
  · intro s dev t last hl hcool
    simp [should_process_motion, hl, hcool]

/-- Witness for C4's theorem at the default 30 s cooldown: of the calls for
device "front" at t = 0, 10, 31 the accepted ones (0 and 31) are at least
30 s apart, and the rejected call at t = 10 leaves the stored time at 0. -/
theorem c4_cooldown_spacing_witness :
    (acceptedTimes MOTION_COOLDOWN_DEFAULT
        [("front", 0), ("front", 10), ("front", 31)] "front").Pairwise
      (fun a b => a + MOTION_COOLDOWN_DEFAULT ≤ b)
    ∧ should_process_motion MOTION_COOLDOWN_DEFAULT [("front", (0 : ℚ))]
        "front" 10 = (false, [("front", (0 : ℚ))]) :=
  ⟨(c4_cooldown_spacing MOTION_COOLDOWN_DEFAULT (by norm_num [MOTION_COOLDOWN_DEFAULT])
      [("front", 0), ("front", 10), ("front", 31)] "front").1,
    (c4_cooldown_spacing MOTION_COOLDOWN_DEFAULT (by norm_num [MOTION_COOLDOWN_DEFAULT])
      [] "front").2 [("front", (0 : ℚ))] "front" 10 0 rfl
      (by norm_num [MOTION_COOLDOWN_DEFAULT])⟩

/-- C5 counterexample: the claim says an event id rejected by the cooldown
is not recorded, so its post-cooldown re-emission triggers a capture.  In
the code the loop adds the id to the seen-set *before* `handle_motion` runs
the cooldown gate: after id 2 is rejected at t = 5 it is already in the
seen-set ([1, 2]), and its re-emission at t = 40 — past the 30 s window —
is skipped without any capture (decisions [true, false, false], where the
claim requires the third to be true). -/
theorem c5_rejected_id_counterexample :
    (runMonitor (fun l => l) MOTION_COOLDOWN_DEFAULT
        { seen := [], lastMotion := none } c5_events).2 = [true, false, false]
    ∧ (runMonitor (fun l => l) MOTION_COOLDOWN_DEFAULT
        { seen := [], lastMotion := none } c5_events).1.seen = [1, 2] := by
  have h1 : ¬ ((5 : ℚ) - 0 < MOTION_COOLDOWN_DEFAULT) → False := by
    norm_num [MOTION_COOLDOWN_DEFAULT]
  constructor <;>
    norm_num [runMonitor, monitor_step, c5_events, MOTION_COOLDOWN_DEFAULT,
      py_set_trim]

/-- C5 (amended): a motion event with a new id has the id inserted into the
device's seen-set before the cooldown gate runs, so a cooldown rejection
leaves the id recorded (shown below the 100-entry trim threshold), and any
event whose id is already in the seen-set — however much time has passed —
is skipped entirely: no capture and no state change. -/
theorem c5_rejected_id_still_recorded :
    (∀ (σ : List Nat → List Nat) (c : ℚ) (s : MonState) (e : MonEvent) (last : ℚ),
      e.kind = "motion" → s.seen.contains e.id = false →
      s.lastMotion = some last → e.time - last < c → s.seen.length < 100 →
      (monitor_step σ c s e).2 = false
      ∧ (monitor_step σ c s e).1.seen.contains e.id = true)
    ∧ (∀ (σ : List Nat → List Nat) (c : ℚ) (s : MonState) (e : MonEvent),
        s.seen.contains e.id = true → monitor_step σ c s e = (s, false)) := by
  constructor
  · intro σ c s e last hk hseen hlast hcool hlen
    have hmem : e.id ∉ s.seen := by simpa using hseen
    have hlen1 : ¬ (100 < (s.seen ++ [e.id]).length) := by
      simp
      omega
    have hlen2 : ¬ (100 < s.seen.length + 1) := by omega
    refine ⟨?_, ?_⟩ <;>
      simp [monitor_step, hk, hmem, hlast, hcool, hlen1, hlen2]
  · intro σ c s e h
    have hmem : e.id ∈ s.seen := by simpa using h
    simp [monitor_step, hmem]

/-- Witness for C5's amended theorem: after event id 7 was accepted at
t = 0, a fresh id 8 at t = 5 is rejected by the 30 s cooldown yet recorded,
and an event whose id 7 is already seen changes nothing. -/
theorem c5_rejected_id_still_recorded_witness :
    ((monitor_step (fun l => l) MOTION_COOLDOWN_DEFAULT
        { seen := [7], lastMotion := some 0 }
        { id := 8, kind := "motion", time := 5 }).2 = false
      ∧ (monitor_step (fun l => l) MOTION_COOLDOWN_DEFAULT
          { seen := [7], lastMotion := some 0 }
          { id := 8, kind := "motion", time := 5 }).1.seen.contains 8 = true)
    ∧ monitor_step (fun l => l) MOTION_COOLDOWN_DEFAULT
        { seen := [7], lastMotion := some 0 }
        { id := 7, kind := "motion", time := 40 } =
      ({ seen := [7], lastMotion := some 0 }, false) :=
  ⟨c5_rejected_id_still_recorded.1 (fun l => l) MOTION_COOLDOWN_DEFAULT
      { seen := [7], lastMotion := some 0 } { id := 8, kind := "motion", time := 5 }
      0 rfl rfl rfl (by norm_num [MOTION_COOLDOWN_DEFAULT]) (by norm_num),
    c5_rejected_id_still_recorded.2 (fun l => l) MOTION_COOLDOWN_DEFAULT
      { seen := [7], lastMotion := some 0 } { id := 7, kind := "motion", time := 40 }
      rfl⟩

/-- Helper: the seen-set update of one loop iteration, isolated.  Whatever
the cooldown gate decides — and whatever the event's time is — the new
seen-set is the same: the id of a new motion event is inserted (and the set
trimmed past 100), every other event leaves it unchanged. -/
theorem monitor_step_seen (σ : List Nat → List Nat) (c : ℚ) (s : MonState)
    (e : MonEvent) :
    (monitor_step σ c s e).1.seen =
      if e.kind == "motion" && !(s.seen.contains e.id) then
        (if 100 < (s.seen ++ [e.id]).length then py_set_trim σ (s.seen ++ [e.id])
         else s.seen ++ [e.id])
      else s.seen := by
  unfold monitor_step
  by_cases hg : (e.kind == "motion" && !(s.seen.contains e.id)) = true
  · rw [if_pos hg, if_pos hg]
    rcases hlast : s.lastMotion with _ | last
    · rfl
    · dsimp only
      split_ifs <;> rfl
  · rw [if_neg hg, if_neg hg]

/-- Helper: the loop's final seen-set is `seenEvolve` of the events' kinds
and ids. -/
theorem runMonitor_seen (σ : List Nat → List Nat) (c : ℚ) :
    ∀ (evs : List MonEvent) (s : MonState),
      (runMonitor σ c s evs).1.seen =
        seenEvolve σ s.seen (evs.map (fun e => (e.kind, e.id))) := by
  intro evs
  induction evs with
  | nil => intro s; rfl
  | cons e es ih =>
      intro s
      show (runMonitor σ c (monitor_step σ c s e).1 es).1.seen = _
      rw [ih]
      have hs := monitor_step_seen σ c s e
      by_cases hg : (e.kind == "motion" && !(s.seen.contains e.id)) = true
      · rw [hg] at hs
        simp only [List.map_cons, seenEvolve, hg, if_true, hs]
      · rw [if_neg hg] at hs
        simp only [List.map_cons, seenEvolve, hs]
        rw [if_neg hg]

set_option maxRecDepth 40000 in
/-- C7 counterexample: the claim says that when the seen-set passes 100
entries it is trimmed to exactly its 50 *most-recently inserted* members,
by insertion order.  The code trims with `set(list(s)[-50:])`, which keeps
the tail of the set's *iteration* order; `sortAsc` is the iteration order
CPython actually produces here (a set of distinct ints 0..100, all smaller
than the backing table, enumerates ascending, since `hash(n) = n`).  After
inserting ids 100, 99, ..., 0 the trimmed set is {51, ..., 100}: the
most-recently inserted id 0 is evicted while the very oldest id 100 is
kept — the opposite of insertion-order recency. -/
theorem c7_trim_not_insertion_order :
    (runMonitor sortAsc MOTION_COOLDOWN_DEFAULT c7_state c7_events).1.seen =
      List.range' 51 50
    ∧ (runMonitor sortAsc MOTION_COOLDOWN_DEFAULT c7_state c7_events).1.seen.contains 0
        = false
    ∧ (runMonitor sortAsc MOTION_COOLDOWN_DEFAULT c7_state c7_events).1.seen.contains 100
        = true
    ∧ (runMonitor sortAsc MOTION_COOLDOWN_DEFAULT c7_state c7_events).1.seen.length = 50 := by
  have h := runMonitor_seen sortAsc MOTION_COOLDOWN_DEFAULT c7_events c7_state
  rw [h]
  refine ⟨by decide, by decide, by decide, by decide⟩

/-- C7 (amended): for any admissible set-iteration order (any permutation of
the members), the loop keeps each device's seen-set duplicate-free and at no
more than 100 entries across steps: an insertion that takes it to 101 is
immediately trimmed back to exactly 50 entries, which are *some* 50-element
subset of its members — the tail of the unspecified iteration order, not
necessarily the most-recently inserted ones. -/
theorem c7_trim_bound (σ : List Nat → List Nat) (hσ : ∀ l, (σ l).Perm l)
    (c : ℚ) (s : MonState) (e : MonEvent)
    (hnd : s.seen.Nodup) (hlen : s.seen.length ≤ 100) :
    ((monitor_step σ c s e).1.seen.Nodup
      ∧ (monitor_step σ c s e).1.seen.length ≤ 100)
    ∧ (e.kind = "motion" → s.seen.contains e.id = false → s.seen.length = 100 →
        (monitor_step σ c s e).1.seen.length = 50
        ∧ (monitor_step σ c s e).1.seen ⊆ s.seen ++ [e.id]) := by
  have hs := monitor_step_seen σ c s e
  by_cases hg : (e.kind == "motion" && !(s.seen.contains e.id)) = true
  · rw [if_pos hg] at hs
    have hmem : e.id ∉ s.seen := by
      have := hg
      simp only [Bool.and_eq_true, Bool.not_eq_true'] at this
      simpa using this.2
    have hnd1 : (s.seen ++ [e.id]).Nodup := by
      simp [List.nodup_append, hnd, hmem]
    have hperm := hσ (s.seen ++ [e.id])
    have hndσ : (σ (s.seen ++ [e.id])).Nodup := hperm.symm.nodup hnd1
    have hlenσ : (σ (s.seen ++ [e.id])).length = s.seen.length + 1 := by
      rw [hperm.length_eq]
      simp
    by_cases htrim : 100 < (s.seen ++ [e.id]).length
    · have h101 : s.seen.length = 100 := by
        simp only [List.length_append, List.length_cons, List.length_nil] at htrim
        omega
      rw [if_pos htrim] at hs
      have hdroplen : (py_set_trim σ (s.seen ++ [e.id])).length = 50 := by
        unfold py_set_trim
        rw [List.length_drop, hlenσ, h101]
      have hdropnd : (py_set_trim σ (s.seen ++ [e.id])).Nodup :=
        List.Nodup.sublist (List.drop_sublist _ _) hndσ
      have hdropsub : py_set_trim σ (s.seen ++ [e.id]) ⊆ s.seen ++ [e.id] :=
        fun x hx =>
          hperm.subset ((List.drop_sublist _ _).subset hx)
      refine ⟨⟨?_, ?_⟩, fun _ _ _ => ⟨?_, ?_⟩⟩ <;>
        rw [hs]
      · exact hdropnd
      · rw [hdroplen]; omega
      · exact hdroplen
      · exact hdropsub
    · rw [if_neg htrim] at hs
      have hlen1 : (s.seen ++ [e.id]).length = s.seen.length + 1 := by simp
      refine ⟨⟨?_, ?_⟩, fun _ _ h100 => absurd htrim ?_⟩
      · rw [hs]; exact hnd1
      · rw [hs, hlen1]
        simp only [List.length_append, List.length_cons, List.length_nil] at htrim
        omega
      · simp only [not_not, List.length_append, List.length_cons, List.length_nil]
        omega
  · rw [if_neg hg] at hs
    refine ⟨⟨by rw [hs]; exact hnd, by rw [hs]; exact hlen⟩, fun hk hseen _ => ?_⟩
    have : (e.kind == "motion" && !(s.seen.contains e.id)) = true := by
      rw [hk, hseen]
      rfl
    exact absurd this hg

/-- Witness for C7's amended theorem with the identity iteration order: the
101st distinct motion id trims the set to exactly 50 members drawn from the
previous members plus the new id. -/
theorem c7_trim_bound_witness :
    ((monitor_step (fun l => l) MOTION_COOLDOWN_DEFAULT c7w_state
        { id := 100, kind := "motion", time := 0 }).1.seen.Nodup
      ∧ (monitor_step (fun l => l) MOTION_COOLDOWN_DEFAULT c7w_state
          { id := 100, kind := "motion", time := 0 }).1.seen.length ≤ 100)
    ∧ ((monitor_step (fun l => l) MOTION_COOLDOWN_DEFAULT c7w_state
          { id := 100, kind := "motion", time := 0 }).1.seen.length = 50
        ∧ (monitor_step (fun l => l) MOTION_COOLDOWN_DEFAULT c7w_state
            { id := 100, kind := "motion", time := 0 }).1.seen ⊆
          c7w_state.seen ++ [100]) :=
  ⟨(c7_trim_bound (fun l => l) (fun l => List.Perm.refl l)
      MOTION_COOLDOWN_DEFAULT c7w_state { id := 100, kind := "motion", time := 0 }
      (by simp [c7w_state, List.nodup_range]) (by simp [c7w_state])).1,
    (c7_trim_bound (fun l => l) (fun l => List.Perm.refl l)
      MOTION_COOLDOWN_DEFAULT c7w_state { id := 100, kind := "motion", time := 0 }
      (by simp [c7w_state, List.nodup_range]) (by simp [c7w_state])).2 rfl (by decide)
      (by simp [c7w_state])⟩

/-- Helper: Python `int` truncation under-approximates a nonnegative value. -/
theorem pyInt_le_of_nonneg (q : ℚ) (h : 0 ≤ q) : ((pyInt q : ℤ) : ℚ) ≤ q := by
  unfold pyInt
  rw [if_pos h]
  exact Int.floor_le q

/-- Helper: the release instant of one `recv` call, unfolded. -/
theorem recv_releaseTime (s : TrackState) (now : ℚ) :
    (recv s now).releaseTime =
      now + (if (SAMPLES_PER_FRAME : ℤ) <
              (s.position : ℤ) - pyInt ((now - s.startTime.getD now) * SAMPLE_RATE)
             then (((s.position : ℤ) -
               pyInt ((now - s.startTime.getD now) * SAMPLE_RATE) : ℤ) : ℚ) / SAMPLE_RATE
             else 0) := rfl

/-- Helper: the state after one `recv` call, unfolded. -/
theorem recv_next (s : TrackState) (now : ℚ) :
    (recv s now).next =
      { samples := s.samples,
        position := min (s.position + SAMPLES_PER_FRAME) s.samples.length,
        startTime := some (s.startTime.getD now) } := rfl

/-- Helper: the emitted chunk of one `recv` call, unfolded. -/
theorem recv_chunk (s : TrackState) (now : ℚ) :
    (recv s now).chunk =
      if s.samples.length ≤ s.position then
        List.replicate SAMPLES_PER_FRAME 0
      else
        ((s.samples.drop s.position).take SAMPLES_PER_FRAME) ++
          List.replicate
            (SAMPLES_PER_FRAME - ((s.samples.drop s.position).take SAMPLES_PER_FRAME).length)
            0 := rfl

/-- Helper: a `recv` call never releases before the instant it was made (the
only wait is a nonnegative sleep). -/
theorem recv_release_ge_now (s : TrackState) (now : ℚ) :
    now ≤ (recv s now).releaseTime := by
  rw [recv_releaseTime]
  by_cases hcase : (SAMPLES_PER_FRAME : ℤ) <
      (s.position : ℤ) - pyInt ((now - s.startTime.getD now) * SAMPLE_RATE)
  · rw [if_pos hcase]
    have h0 : (0 : ℤ) ≤ (s.position : ℤ) - pyInt ((now - s.startTime.getD now) * SAMPLE_RATE) := by
      have : (0 : ℤ) ≤ (SAMPLES_PER_FRAME : ℤ) := by positivity
      omega
    have h0q : (0 : ℚ) ≤ (((s.position : ℤ) -
        pyInt ((now - s.startTime.getD now) * SAMPLE_RATE) : ℤ) : ℚ) := by
      exact_mod_cast h0
    have : (0 : ℚ) ≤ (((s.position : ℤ) -
        pyInt ((now - s.startTime.getD now) * SAMPLE_RATE) : ℤ) : ℚ) / SAMPLE_RATE := by
      apply div_nonneg h0q
      norm_num [SAMPLE_RATE]
    linarith
  · rw [if_neg hcase]
    linarith

/-- Helper: a started source whose first request was at `σ` releases the
frame beginning at sample position p no earlier than `σ + (p − 960)/48000`:
either the source sleeps the full shortfall (landing at or past `σ + p/48000`),
or it is at most one frame ahead of the truncated elapsed-time target. -/
theorem recv_release_lb (s : TrackState) (σ now : ℚ)
    (hs : s.startTime = some σ) (hσ : σ ≤ now) :
    σ + (((s.position : ℚ) - 960) / 48000) ≤ (recv s now).releaseTime := by
  rw [recv_releaseTime, hs]
  have hgd : (Option.getD (some σ) now) = σ := rfl
  rw [hgd]
  have helap : (0 : ℚ) ≤ (now - σ) * SAMPLE_RATE := by
    apply mul_nonneg (by linarith)
    norm_num [SAMPLE_RATE]
  have ht : ((pyInt ((now - σ) * SAMPLE_RATE) : ℤ) : ℚ) ≤ (now - σ) * SAMPLE_RATE :=
    pyInt_le_of_nonneg _ helap
  have hsr : (SAMPLE_RATE : ℚ) = 48000 := rfl
  by_cases hcase : (SAMPLES_PER_FRAME : ℤ) <
      (s.position : ℤ) - pyInt ((now - σ) * SAMPLE_RATE)
  · rw [if_pos hcase]
    have hcast : (((s.position : ℤ) - pyInt ((now - σ) * SAMPLE_RATE) : ℤ) : ℚ) =
        (s.position : ℚ) - ((pyInt ((now - σ) * SAMPLE_RATE) : ℤ) : ℚ) := by
      push_cast
      ring
    rw [hcast, hsr]
    rw [hsr] at ht
    linarith
  · rw [if_neg hcase]
    have hle : (s.position : ℤ) - pyInt ((now - σ) * SAMPLE_RATE) ≤ (SAMPLES_PER_FRAME : ℤ) :=
      not_lt.mp hcase
    have hleq : (s.position : ℚ) - ((pyInt ((now - σ) * SAMPLE_RATE) : ℤ) : ℚ) ≤ 960 := by
      have : ((SAMPLES_PER_FRAME : ℤ) : ℚ) = 960 := by norm_num [SAMPLES_PER_FRAME]
      calc (s.position : ℚ) - ((pyInt ((now - σ) * SAMPLE_RATE) : ℤ) : ℚ)
          = (((s.position : ℤ) - pyInt ((now - σ) * SAMPLE_RATE) : ℤ) : ℚ) := by push_cast; ring
        _ ≤ ((SAMPLES_PER_FRAME : ℤ) : ℚ) := by exact_mod_cast hle
        _ = 960 := this
    rw [hsr] at ht hleq
    linarith

/-- Helper: along any run of a started source with nonnegative inter-call
delays, while frame n's data still comes entirely from the buffer, its
release instant is at least `σ + (p + 960·n − 960)/48000` (one frame of
slack below the exact real-time schedule), where p is the starting
position. -/
theorem runRecv_release_lb (ds : List ℚ) :
    ∀ (s : TrackState) (σ t : ℚ) (n : Nat) (r : ℚ),
      s.startTime = some σ → σ ≤ t → (∀ d ∈ ds, 0 ≤ d) →
      s.position + n * 960 ≤ s.samples.length →
      (runRecv s t ds).get? n = some r →
      σ + (((s.position : ℚ) + (n : ℚ) * 960 - 960) / 48000) ≤ r := by
  induction ds with
  | nil =>
      intro s σ t n r _ _ _ _ hget
      simp [runRecv] at hget
  | cons d ds ih =>
      intro s σ t n r hs hσ hnn hpos hget
      have hd0 : 0 ≤ d := hnn d (by simp)
      have hσ' : σ ≤ t + d := by linarith
      cases n with
      | zero =>
          have hr : r = (recv s (t + d)).releaseTime := by
            simpa [runRecv] using hget.symm
          rw [hr]
          have h := recv_release_lb s σ (t + d) hs hσ'
          simpa using h
      | succ m =>
          have hget' : (runRecv (recv s (t + d)).next
              (recv s (t + d)).releaseTime ds).get? m = some r := by
            simpa [runRecv] using hget
          have h960 : s.position + 960 ≤ s.samples.length := by
            have : 960 ≤ (m + 1) * 960 := by omega
            omega
          have hnext_start : (recv s (t + d)).next.startTime = some σ := by
            rw [recv_next, hs]
            rfl
          have hrel_ge : t + d ≤ (recv s (t + d)).releaseTime :=
            recv_release_ge_now s (t + d)
          have hσ'' : σ ≤ (recv s (t + d)).releaseTime := le_trans hσ' hrel_ge
          have hposcalc : (recv s (t + d)).next.position = s.position + 960 := by
            rw [recv_next]
            simpa [SAMPLES_PER_FRAME] using Nat.min_eq_left h960
          have hsamples : (recv s (t + d)).next.samples = s.samples := by
            rw [recv_next]
          have hpos' : (recv s (t + d)).next.position + m * 960 ≤
              (recv s (t + d)).next.samples.length := by
            rw [hposcalc, hsamples]
            have : s.position + (m + 1) * 960 ≤ s.samples.length := hpos
            omega
          have h := ih (recv s (t + d)).next σ (recv s (t + d)).releaseTime m r
            hnext_start hσ'' (fun x hx => hnn x (by simp [hx])) hpos' hget'
          rw [hposcalc] at h
          have hcast : ((s.position + 960 : ℕ) : ℚ) + (m : ℚ) * 960 - 960 =
              (s.position : ℚ) + ((Nat.succ m : ℕ) : ℚ) * 960 - 960 := by
            push_cast
            ring
          rw [hcast] at h
          exact h

/-- Helper: the first call of a fresh track latches the start time, releases
immediately, and advances the position by one frame (clipped to the
buffer). -/
theorem recv_init (samples : List Int) (now : ℚ) :
    (recv (trackInit samples) now).releaseTime = now
    ∧ (recv (trackInit samples) now).next =
      { samples := samples, position := min 960 samples.length,
        startTime := some now } := by
  constructor
  · rw [recv_releaseTime]
    have h0 : (now - (trackInit samples).startTime.getD now) * SAMPLE_RATE = 0 := by
      simp [trackInit]
    rw [h0]
    have hpy : pyInt 0 = 0 := by simp [pyInt]
    rw [hpy]
    have hcond : ¬ ((SAMPLES_PER_FRAME : ℤ) < ((trackInit samples).position : ℤ) - 0) := by
      simp [trackInit, SAMPLES_PER_FRAME]
    rw [if_neg hcond]
    ring
  · rw [recv_next]
    simp [trackInit, SAMPLES_PER_FRAME]

/-- C9 (amended): the pacing that `AudioFileTrack.recv` actually enforces permits
one frame of run-ahead over the wall clock: while the buffer is not exhausted, frame n
(0-indexed) is released no earlier than (n − 1) × 20 ms after the first
request — not n × 20 ms as claimed — and once the buffer is exhausted every
call returns a zero-filled 960-sample silence frame instead of ending the
sequence. -/
theorem c9_one_frame_slack_and_silence :
    (∀ (samples : List Int) (t d₀ : ℚ) (ds : List ℚ) (n : Nat) (r : ℚ),
      0 ≤ d₀ → (∀ d ∈ ds, 0 ≤ d) →
      (n + 1) * 960 ≤ samples.length →
      (runRecv (trackInit samples) t (d₀ :: ds)).get? n = some r →
      (t + d₀) + ((n : ℚ) - 1) * (1 / 50) ≤ r)
    ∧ (∀ (s : TrackState) (now : ℚ), s.samples.length ≤ s.position →
        (recv s now).chunk = List.replicate 960 0) := by
  constructor
  · intro samples t d₀ ds n r hd0 hnn hlen hget
    have hrel := (recv_init samples (t + d₀)).1
    have hnext := (recv_init samples (t + d₀)).2
    cases n with
    | zero =>
        have hr : r = (recv (trackInit samples) (t + d₀)).releaseTime := by
          simpa [runRecv] using hget.symm
        rw [hr, hrel]
        push_cast
        linarith
    | succ m =>
        have hget' : (runRecv (recv (trackInit samples) (t + d₀)).next
            (recv (trackInit samples) (t + d₀)).releaseTime ds).get? m = some r := by
          simpa [runRecv] using hget
        rw [hrel, hnext] at hget'
        have h960le : 960 ≤ samples.length := by
          have : 960 ≤ (m + 1 + 1) * 960 := by omega
          omega
        have hmin : min 960 samples.length = 960 := Nat.min_eq_left h960le
        rw [hmin] at hget'
        have hpos : (960 : ℕ) + m * 960 ≤ samples.length := by omega
        have h := runRecv_release_lb ds
          { samples := samples, position := 960, startTime := some (t + d₀) }
          (t + d₀) (t + d₀) m r rfl (le_refl _) hnn hpos hget'
        dsimp only at h
        push_cast at h ⊢
        linarith
  · intro s now h
    rw [recv_chunk, if_pos h]
    rfl

/-- Helper: a source one whole frame ahead (position 960) asked again at the
very instant of its first request does not sleep: the run-ahead equals, and
does not exceed, one frame. -/
theorem recv_960_at_start (samples : List Int) (τ : ℚ) :
    (recv { samples := samples, position := 960, startTime := some τ }
        τ).releaseTime = τ := by
  rw [recv_releaseTime]
  dsimp only
  norm_num [pyInt, SAMPLES_PER_FRAME, SAMPLE_RATE]

/-- C9 counterexample: the claim says frame N is never released before
N × 20 ms of wall-clock time since the first request.  With a 1920-sample
(two-frame) buffer and a consumer that asks again immediately, the second
frame (N = 1 counting from 0, N = 2 counting from 1) is released at t = 0 —
before 20 ms, let alone 40 ms, has elapsed: the implementation only sleeps
once it is *more* than one full frame ahead. -/
theorem c9_early_release_counterexample :
    (runRecv (trackInit (List.replicate 1920 1)) 0 [0, 0]).get? 1 = some 0
    ∧ (0 : ℚ) < 1 * (1 / 50) := by
  constructor
  · have h1 := (recv_init (List.replicate 1920 1) ((0 : ℚ) + 0)).1
    have h2 := (recv_init (List.replicate 1920 1) ((0 : ℚ) + 0)).2
    have h3 :
        (recv { samples := List.replicate 1920 1, position := 960, startTime := some (0 : ℚ) } (0 : ℚ)).releaseTime = 0 :=
      recv_960_at_start (List.replicate 1920 1) 0
    simp only [runRecv, h1, h2, List.get?]
    norm_num [h3]
  · norm_num

/-- Witness for C9's amended theorem: with a two-frame buffer and immediate
re-requests from t = 0, frame 1's release instant 0 meets the (n − 1) × 20 ms
bound, and a track whose position has reached its buffer length emits
silence. -/
theorem c9_one_frame_slack_witness :
    ((0 : ℚ) + 0) + ((1 : ℚ) - 1) * (1 / 50) ≤ 0
    ∧ (recv { samples := [1], position := 1, startTime := some 0 }
        7).chunk = List.replicate 960 0 := by
  constructor
  · have h1 := (recv_init (List.replicate 1920 1) ((0 : ℚ) + 0)).1
    have h2 := (recv_init (List.replicate 1920 1) ((0 : ℚ) + 0)).2
    have h3 :
        (recv { samples := List.replicate 1920 1, position := 960, startTime := some (0 : ℚ) } (0 : ℚ)).releaseTime = 0 :=
      recv_960_at_start (List.replicate 1920 1) 0
    refine c9_one_frame_slack_and_silence.1 (List.replicate 1920 1) 0 0 [0] 1 0
      (le_refl 0) (by norm_num) (by norm_num) ?_
    simp only [runRecv, h1, h2, List.get?]
    norm_num [h3]
  · exact c9_one_frame_slack_and_silence.2
      { samples := [1], position := 1, startTime := some 0 } 7 (by norm_num)
